import Mathlib

/-!
Verification of the adapter/dispatch core of the sales-intelligence MCP server.

The TypeScript sources are shallowly embedded: JavaScript strings are modelled
as Lean `String` (a list of characters), `undefined`-able values as `Option`,
JavaScript truthiness explicitly, fallible code as `Except`, and the count of
outbound network calls as an explicit `Nat` result component.
-/

/- ── JavaScript semantics helpers ───────────────────────────── -/

/-- JavaScript truthiness of a `string | undefined` value: `undefined` and the
empty string are falsy. -/
def jsTruthy : Option String → Bool
  | none => false
  | some s => !(s == "")

/-- JavaScript `a || b` for strings: returns `b` when `a` is empty (falsy). -/
def jsOr (a b : String) : String := if a = "" then b else a

/-- JavaScript `a || b` where `a` is a possibly-absent number: `undefined` and
`0` are falsy. -/
def jsOrNat (a : Option Nat) (b : Nat) : Nat :=
  match a with
  | none => b
  | some 0 => b
  | some n => n

/-- Decimal digits of a natural number, least significant first, computed with
explicit fuel so that the definition is structurally recursive (and hence
evaluates inside the kernel).  Agrees with `Nat.digits 10` once the fuel is at
least the number. -/
def natDigitsRev : Nat → Nat → List Nat
  | _, 0 => []
  | 0, _ + 1 => []
  | fuel + 1, n + 1 => ((n + 1) % 10) :: natDigitsRev fuel ((n + 1) / 10)

/-- The decimal rendering of a natural number, as produced by JavaScript
template interpolation of a number (for example `${text.length}`). -/
def natRepr (n : Nat) : String :=
  if n = 0 then "0" else ((natDigitsRev n n).map Nat.digitChar).reverse.asString

/-- The decimal rendering of an integer (JSON number serialization). -/
def intRepr (n : Int) : String :=
  if n < 0 then "-" ++ natRepr n.natAbs else natRepr n.natAbs

theorem natDigitsRev_eq_digits (fuel : Nat) :
    ∀ n : Nat, n ≤ fuel → natDigitsRev fuel n = Nat.digits 10 n := by
  induction fuel with
  | zero =>
    intro n hn
    interval_cases n
    simp [natDigitsRev]
  | succ f ih =>
    intro n hn
    match n with
    | 0 => simp [natDigitsRev]
    | m + 1 =>
      rw [natDigitsRev, Nat.digits_def' (by norm_num : (1:ℕ) < 10) (Nat.succ_pos m)]
      congr 1
      exact ih ((m + 1) / 10) (by omega)

theorem natRepr_length (n : Nat) (hn : n ≠ 0) :
    (natRepr n).length = (Nat.digits 10 n).length := by
  unfold natRepr
  rw [if_neg hn, List.length_asString, List.length_reverse, List.length_map,
    natDigitsRev_eq_digits n n le_rfl]

theorem natRepr_length_le (n k : Nat) (hn : n ≠ 0) (h : n < 10 ^ k) :
    (natRepr n).length ≤ k := by
  rw [natRepr_length n hn, Nat.digits_len 10 n (by norm_num) hn]
  have := (Nat.lt_pow_iff_log_lt (by norm_num : (1:ℕ) < 10) hn).mp h
  omega

theorem natRepr_length_lower (n : Nat) (hn : n ≠ 0) :
    10 ^ ((natRepr n).length - 1) ≤ n := by
  rw [natRepr_length n hn]
  have h1 : 10 ^ (Nat.digits 10 n).length ≤ 10 * n :=
    Nat.base_pow_length_digits_le 10 n (by norm_num) hn
  have h2 : 1 ≤ (Nat.digits 10 n).length := by
    rw [Nat.digits_len 10 n (by norm_num) hn]; omega
  have h3 : 10 * 10 ^ ((Nat.digits 10 n).length - 1) = 10 ^ (Nat.digits 10 n).length := by
    rw [← pow_succ']
    congr 1
    omega
  have h4 : 10 * 10 ^ ((Nat.digits 10 n).length - 1) ≤ 10 * n := by rw [h3]; exact h1
  exact Nat.le_of_mul_le_mul_left h4 (by norm_num)

theorem pow_dominates_digit_count (d : Nat) (hd : 119 ≤ d) : 24882 + d < 10 ^ (d - 1) := by
  induction d, hd using Nat.le_induction with
  | base => norm_num
  | succ n hn ih =>
    have hstep : 10 ^ (n - 1) < 10 ^ n := Nat.pow_lt_pow_right (by norm_num) (by omega)
    have hidx : n + 1 - 1 = n := rfl
    rw [hidx]
    omega

/- ── Response Governor (clay-client.ts / error-handler.ts) ──── -/

/-- Response limit from constants.ts. -/
def CHARACTER_LIMIT : Nat := 25000

/-- JavaScript `text.substring(0, k)`: the first `k` character units. -/
def jsSubstring (text : String) (k : Nat) : String := String.mk (text.data.take k)

/-- The notice appended when a response is truncated (clay-client.ts line 120). -/
def truncationNotice (origLen : Nat) : String :=
  "\n\n---\n⚠️ Response truncated (" ++ natRepr origLen ++
    " chars). Use filters or pagination to narrow results."

/-- Truncate a response string if it exceeds the character limit
(clay-client.ts lines 117-121). -/
def truncateResponse (text : String) (limit : Nat) : String :=
  if text.length ≤ limit then text
  else jsSubstring text (limit - 200) ++ truncationNotice text.length

theorem truncationNotice_length (n : Nat) :
    (truncationNotice n).length = 82 + (natRepr n).length := by
  unfold truncationNotice
  rw [String.length_append, String.length_append]
  have h1 : ("\n\n---\n⚠️ Response truncated (" : String).length = 29 := rfl
  have h2 : (" chars). Use filters or pagination to narrow results." : String).length = 53 := rfl
  omega

theorem jsSubstring_length (text : String) (k : Nat) :
    (jsSubstring text k).length = min k text.length := by
  unfold jsSubstring
  show (text.data.take k).length = min k text.data.length
  exact List.length_take ..

theorem truncateResponse_length_of_gt (text : String) (h : CHARACTER_LIMIT < text.length) :
    (truncateResponse text CHARACTER_LIMIT).length = 24882 + (natRepr text.length).length := by
  unfold truncateResponse
  rw [if_neg (by omega), String.length_append, truncationNotice_length, jsSubstring_length]
  have hc : CHARACTER_LIMIT = 25000 := rfl
  omega

theorem natRepr_length_pos (n : Nat) : 1 ≤ (natRepr n).length := by
  by_cases hn : n = 0
  · subst hn; rfl
  · rw [natRepr_length n hn, Nat.digits_len 10 n (by norm_num) hn]
    omega

theorem truncationNotice_fixed_split :
    ("\n\n---\n⚠️ Response truncated (" : String).data =
      ("\n\n---\n⚠️ " : String).data ++ ("Response truncated" : String).data ++
        (" (" : String).data := by decide

/-- C3: for every text whose length is at most the governor limit,
`truncateResponse` returns its input unchanged; for every text longer than the
limit, the output is strictly shorter than the input, contains the decimal
rendering of the original length, and contains the truncation notice marker. -/
theorem truncateResponse_spec (text : String) :
    (text.length ≤ CHARACTER_LIMIT → truncateResponse text CHARACTER_LIMIT = text) ∧
    (CHARACTER_LIMIT < text.length →
      (truncateResponse text CHARACTER_LIMIT).length < text.length ∧
      (natRepr text.length).data <:+: (truncateResponse text CHARACTER_LIMIT).data ∧
      ("Response truncated" : String).data <:+: (truncateResponse text CHARACTER_LIMIT).data) := by
  constructor
  · intro h
    unfold truncateResponse
    rw [if_pos h]
  · intro h
    have hlen := truncateResponse_length_of_gt text h
    have hn0 : text.length ≠ 0 := by
      have : CHARACTER_LIMIT = 25000 := rfl
      omega
    have hdata : (truncateResponse text CHARACTER_LIMIT).data =
        (jsSubstring text (CHARACTER_LIMIT - 200)).data ++
          (("\n\n---\n⚠️ Response truncated (" : String).data ++
            ((natRepr text.length).data ++
              (" chars). Use filters or pagination to narrow results." : String).data)) := by
      unfold truncateResponse truncationNotice
      rw [if_neg (by omega)]
      simp [String.data_append]
    refine ⟨?_, ?_, ?_⟩
    · by_cases hd : (natRepr text.length).length ≤ 118
      · have hc : CHARACTER_LIMIT = 25000 := rfl
        omega
      · push_neg at hd
        have hlow := natRepr_length_lower text.length hn0
        have hdom := pow_dominates_digit_count (natRepr text.length).length (by omega)
        omega
    · refine ⟨(jsSubstring text (CHARACTER_LIMIT - 200)).data ++
          ("\n\n---\n⚠️ Response truncated (" : String).data,
        (" chars). Use filters or pagination to narrow results." : String).data, ?_⟩
      rw [hdata]
      simp [List.append_assoc]
    · refine ⟨(jsSubstring text (CHARACTER_LIMIT - 200)).data ++
          ("\n\n---\n⚠️ " : String).data,
        (" (" : String).data ++
          ((natRepr text.length).data ++
            (" chars). Use filters or pagination to narrow results." : String).data), ?_⟩
      rw [hdata, truncationNotice_fixed_split]
      simp [List.append_assoc]

/-- Concrete oversized response used in witnesses. -/
def bigResponseA : String := String.mk (List.replicate 25001 'a')

theorem bigResponseA_length : bigResponseA.length = 25001 := by
  show (List.replicate 25001 'a').length = 25001
  exact List.length_replicate ..

/-- C3 witness: the governor theorem applied at concrete inputs. -/
theorem truncateResponse_spec_witness :
    ("hi" : String).length ≤ CHARACTER_LIMIT ∧
    CHARACTER_LIMIT < bigResponseA.length ∧
    truncateResponse "hi" CHARACTER_LIMIT = "hi" ∧
    (truncateResponse bigResponseA CHARACTER_LIMIT).length < bigResponseA.length := by
  have h1 : ("hi" : String).length ≤ CHARACTER_LIMIT := by decide
  have h2 : CHARACTER_LIMIT < bigResponseA.length := by
    rw [bigResponseA_length]
    decide
  exact ⟨h1, h2, (truncateResponse_spec "hi").1 h1, ((truncateResponse_spec bigResponseA).2 h2).1⟩

/-- C9: truncation never corrupts the appended notice: the governed output never
exceeds the fixed maximum of 25000 characters, and whenever truncation occurs
the output ends with the complete notice, whose length (including the decimal
original length) fits inside the 200-character reserve — for every input a
JavaScript engine can represent (length below 2^53). -/
theorem truncateResponse_notice_intact (text : String) (h53 : text.length < 2 ^ 53) :
    (truncateResponse text CHARACTER_LIMIT).length ≤ CHARACTER_LIMIT ∧
    (CHARACTER_LIMIT < text.length →
      (truncationNotice text.length).data <:+ (truncateResponse text CHARACTER_LIMIT).data ∧
      (truncationNotice text.length).length ≤ 200) := by
  have hd : text.length ≠ 0 → (natRepr text.length).length ≤ 118 := fun hn =>
    natRepr_length_le text.length 118 hn (lt_trans h53 (by norm_num))
  constructor
  · by_cases h : text.length ≤ CHARACTER_LIMIT
    · unfold truncateResponse
      rw [if_pos h]
      exact h
    · push_neg at h
      have hlen := truncateResponse_length_of_gt text h
      have hn : text.length ≠ 0 := by
        have : CHARACTER_LIMIT = 25000 := rfl
        omega
      have hdig := hd hn
      have hc : CHARACTER_LIMIT = 25000 := rfl
      omega
  · intro h
    constructor
    · refine ⟨(jsSubstring text (CHARACTER_LIMIT - 200)).data, ?_⟩
      unfold truncateResponse
      rw [if_neg (by omega)]
      simp [String.data_append]
    · have hn : text.length ≠ 0 := by
        have : CHARACTER_LIMIT = 25000 := rfl
        omega
      rw [truncationNotice_length]
      have hdig := hd hn
      omega

/-- C9 witness at a concrete 25001-character input. -/
theorem truncateResponse_notice_intact_witness :
    bigResponseA.length < 2 ^ 53 ∧
    (truncateResponse bigResponseA CHARACTER_LIMIT).length ≤ CHARACTER_LIMIT := by
  have h : bigResponseA.length < 2 ^ 53 := by
    rw [bigResponseA_length]
    norm_num
  exact ⟨h, (truncateResponse_notice_intact bigResponseA h).1⟩

/- ── Error Normalizer (handleApiError, clay-client.ts 72-112) ─ -/

/-- The HTTP response attached to an axios failure, as inspected by
`handleApiError`: the status code and the optional `message` / `error` fields
of the JSON body. -/
structure HttpResponse where
  status : Nat
  dataMessage : Option String
  dataError : Option String

/-- An `AxiosError` as inspected by `handleApiError`: its transport error code,
its optional HTTP response, and its `message` (every AxiosError is an Error). -/
structure AxiosFailure where
  code : Option String
  response : Option HttpResponse
  message : String

/-- A thrown JavaScript value, as classified by the `instanceof` tests in
`handleApiError`. -/
inductive JsError where
  | axios (e : AxiosFailure)
  | plain (message : String)
  | nonError

/-- The status-code branch of `handleApiError` (the `switch` on
`error.response.status`). -/
def statusMessage (service : String) (r : HttpResponse) : String :=
  let message := jsOr (r.dataMessage.getD "") (r.dataError.getD "")
  if r.status = 400 then
    service ++ " Error: Bad request. " ++ jsOr message "Check your parameters and try again."
  else if r.status = 401 then
    service ++ " Error: Authentication failed. Check your " ++ service ++
      " API credentials in environment variables."
  else if r.status = 403 then
    service ++ " Error: Permission denied. Your API key may lack the required scope for this operation."
  else if r.status = 404 then
    service ++ " Error: Resource not found. " ++ jsOr message "Verify the ID or query and try again."
  else if r.status = 429 then
    service ++ " Error: Rate limit exceeded. Please wait before making more requests."
  else if r.status = 500 ∨ r.status = 502 ∨ r.status = 503 then
    service ++ " Error: Service temporarily unavailable (HTTP " ++ natRepr r.status ++
      "). Please try again in a few minutes."
  else
    service ++ " Error: API request failed with HTTP " ++ natRepr r.status ++ ". " ++ message

/-- Shared error handling for all API clients (clay-client.ts lines 72-112).
An axios failure with a response is classified by status; otherwise the
transport codes are inspected; otherwise the error message is passed through
with the service prefix; a non-Error value yields the generic message. -/
def handleApiError (error : JsError) (service : String) : String :=
  match error with
  | .axios e =>
    match e.response with
    | some r => statusMessage service r
    | none =>
      if e.code = some "ECONNABORTED" then
        service ++ " Error: Request timed out. The service may be slow — try again or reduce your query scope."
      else if e.code = some "ECONNREFUSED" then
        service ++ " Error: Connection refused. The service may be down."
      else
        service ++ " Error: " ++ e.message
  | .plain message => service ++ " Error: " ++ message
  | .nonError => service ++ " Error: An unexpected error occurred."

/-- C4 counterexample: status 504 lies in 500-599 but is normalized by the
generic request-failed branch, not the transient-unavailability branch. -/
theorem handleApiError_504_counterexample :
    handleApiError (.axios ⟨none, some ⟨504, none, none⟩, "Server Error"⟩) "Gong"
      = "Gong Error: API request failed with HTTP 504. " ∧
    handleApiError (.axios ⟨none, some ⟨504, none, none⟩, "Server Error"⟩) "Gong"
      ≠ "Gong Error: Service temporarily unavailable (HTTP 504). Please try again in a few minutes." := by
  constructor
  · rfl
  · decide

/-- C4 (amended): statuses 500, 502 and 503 produce the transient-unavailability
message including the decimal status code; every other 5xx status falls to the
generic request-failed branch, whose message also includes the decimal status
code. -/
theorem handleApiError_5xx_spec (service m : String) (c : Option String) (r : HttpResponse)
    (h5 : 500 ≤ r.status) (h5b : r.status ≤ 599) :
    (natRepr r.status).data <:+: (handleApiError (.axios ⟨c, some r, m⟩) service).data ∧
    ((r.status = 500 ∨ r.status = 502 ∨ r.status = 503) →
      handleApiError (.axios ⟨c, some r, m⟩) service
        = service ++ " Error: Service temporarily unavailable (HTTP " ++ natRepr r.status ++
            "). Please try again in a few minutes.") ∧
    (¬ (r.status = 500 ∨ r.status = 502 ∨ r.status = 503) →
      handleApiError (.axios ⟨c, some r, m⟩) service
        = service ++ " Error: API request failed with HTTP " ++ natRepr r.status ++ ". " ++
            jsOr (r.dataMessage.getD "") (r.dataError.getD "")) := by
  have hbase : handleApiError (.axios ⟨c, some r, m⟩) service = statusMessage service r := rfl
  have hform : statusMessage service r
      = (if r.status = 500 ∨ r.status = 502 ∨ r.status = 503 then
          service ++ " Error: Service temporarily unavailable (HTTP " ++ natRepr r.status ++
            "). Please try again in a few minutes."
        else
          service ++ " Error: API request failed with HTTP " ++ natRepr r.status ++ ". " ++
            jsOr (r.dataMessage.getD "") (r.dataError.getD "")) := by
    unfold statusMessage
    rw [if_neg (by omega), if_neg (by omega), if_neg (by omega), if_neg (by omega),
      if_neg (by omega)]
  refine ⟨?_, ?_, ?_⟩
  · rw [hbase, hform]
    by_cases h : r.status = 500 ∨ r.status = 502 ∨ r.status = 503
    · rw [if_pos h]
      refine ⟨(service ++ " Error: Service temporarily unavailable (HTTP " : String).data,
        ("). Please try again in a few minutes." : String).data, ?_⟩
      simp [String.data_append, List.append_assoc]
    · rw [if_neg h]
      refine ⟨(service ++ " Error: API request failed with HTTP " : String).data,
        (". " ++ jsOr (r.dataMessage.getD "") (r.dataError.getD "") : String).data, ?_⟩
      simp [String.data_append, List.append_assoc]
  · intro h
    rw [hbase, hform, if_pos h]
  · intro h
    rw [hbase, hform, if_neg h]

/-- C4 witness: the amended 5xx theorem applied at statuses 502 and 504. -/
theorem handleApiError_5xx_spec_witness :
    handleApiError (.axios ⟨none, some ⟨502, none, none⟩, ""⟩) "Clay"
      = "Clay Error: Service temporarily unavailable (HTTP 502). Please try again in a few minutes." ∧
    handleApiError (.axios ⟨none, some ⟨504, none, none⟩, ""⟩) "Clay"
      = "Clay Error: API request failed with HTTP 504. " := by
  constructor
  · have h := (handleApiError_5xx_spec "Clay" "" none ⟨502, none, none⟩
      (by norm_num) (by norm_num)).2.1 (by norm_num)
    rw [h]
    rfl
  · have h := (handleApiError_5xx_spec "Clay" "" none ⟨504, none, none⟩
      (by norm_num) (by norm_num)).2.2 (by norm_num)
    rw [h]
    rfl

/-- C5 counterexample: a failure carrying both a timeout transport code and an
HTTP response is classified by the status branch, not as a timeout. -/
theorem handleApiError_timeout_with_response_counterexample :
    handleApiError (.axios ⟨some "ECONNABORTED", some ⟨400, none, none⟩, "timeout"⟩) "Gong"
      = "Gong Error: Bad request. Check your parameters and try again." ∧
    handleApiError (.axios ⟨some "ECONNABORTED", some ⟨400, none, none⟩, "timeout"⟩) "Gong"
      ≠ "Gong Error: Request timed out. The service may be slow — try again or reduce your query scope." := by
  constructor
  · rfl
  · decide

/-- C5 (amended): the normalizer inspects the HTTP response first — any failure
with a response present is classified by its status code regardless of the
transport code — and the timed-out branch applies only when no response is
present. -/
theorem handleApiError_priority_spec (service m : String) (c : Option String) (r : HttpResponse) :
    handleApiError (.axios ⟨c, some r, m⟩) service = statusMessage service r ∧
    (c = some "ECONNABORTED" →
      handleApiError (.axios ⟨c, none, m⟩) service
        = service ++ " Error: Request timed out. The service may be slow — try again or reduce your query scope.") := by
  constructor
  · rfl
  · intro hc
    subst hc
    rfl

/-- C5 witness: the priority theorem applied at a concrete timeout failure. -/
theorem handleApiError_priority_spec_witness :
    handleApiError (.axios ⟨some "ECONNABORTED", some ⟨429, none, none⟩, "t"⟩) "ZoomInfo"
      = statusMessage "ZoomInfo" ⟨429, none, none⟩ ∧
    handleApiError (.axios ⟨some "ECONNABORTED", none, "t"⟩) "ZoomInfo"
      = "ZoomInfo Error: Request timed out. The service may be slow — try again or reduce your query scope." := by
  exact ⟨(handleApiError_priority_spec "ZoomInfo" "t" (some "ECONNABORTED") ⟨429, none, none⟩).1,
    (handleApiError_priority_spec "ZoomInfo" "t" (some "ECONNABORTED") ⟨429, none, none⟩).2 rfl⟩

/- ── Environment and per-backend adapters ───────────────────── -/

/-- The credential environment variables read by the four adapters. -/
structure Env where
  GONG_ACCESS_KEY : Option String := none
  GONG_ACCESS_KEY_SECRET : Option String := none
  ZOOMINFO_CLIENT_ID : Option String := none
  ZOOMINFO_PRIVATE_KEY : Option String := none
  CLAY_API_KEY : Option String := none
  LINKEDIN_ACCESS_TOKEN : Option String := none

/-- The base64 alphabet. -/
def base64Table : List Char :=
  "ABCDEFGHIJKLMNOPQRSTUVWXYZabcdefghijklmnopqrstuvwxyz0123456789+/".data

/-- The base64 digit for a 6-bit value. -/
def base64Digit (n : Nat) : Char := base64Table.getD n 'A'

/-- base64 encoding of a byte list, three bytes to four digits with padding. -/
def base64Chunks : List Nat → List Char
  | [] => []
  | [a] => [base64Digit (a / 4), base64Digit (a % 4 * 16), '=', '=']
  | [a, b] => [base64Digit (a / 4), base64Digit (a % 4 * 16 + b / 16), base64Digit (b % 16 * 4), '=']
  | a :: b :: c :: rest =>
    base64Digit (a / 4) :: base64Digit (a % 4 * 16 + b / 16) ::
      base64Digit (b % 16 * 4 + c / 64) :: base64Digit (c % 64) :: base64Chunks rest

/-- `Buffer.from(s).toString("base64")`: base64 of the UTF-8 bytes of `s`. -/
def base64Encode (s : String) : String :=
  String.mk (base64Chunks (s.toUTF8.toList.map UInt8.toNat))

/-- The lazily built Gong axios client, identified by its fixed Basic
Authorization header. -/
structure GongClient where
  authHeader : String

/-- `getClient` in gong-client.ts lines 13-38: return the cached client if one
exists; otherwise read the two required environment values (failing with a
configuration error if either is absent or empty) and build and cache a client
with a fixed Basic header.  The result pairs the returned-or-thrown value with
the updated module-level cache. -/
def gongGetClient (env : Env) (client : Option GongClient) :
    Except String GongClient × Option GongClient :=
  match client with
  | some c => (.ok c, some c)
  | none =>
    if !(jsTruthy env.GONG_ACCESS_KEY) || !(jsTruthy env.GONG_ACCESS_KEY_SECRET) then
      (.error "Gong credentials not configured. Set GONG_ACCESS_KEY and GONG_ACCESS_KEY_SECRET environment variables.",
        none)
    else
      let encoded := base64Encode
        (env.GONG_ACCESS_KEY.getD "" ++ ":" ++ env.GONG_ACCESS_KEY_SECRET.getD "")
      let c : GongClient := ⟨"Basic " ++ encoded⟩
      (.ok c, some c)

/-- `gongPost` / `gongGet`: resolve the client, then perform exactly one
outbound call whose outcome is `net`.  The final `Nat` counts outbound network
calls made during the invocation. -/
def gongPost {α : Type} (env : Env) (client : Option GongClient)
    (net : Except AxiosFailure α) : (Except JsError α × Option GongClient) × Nat :=
  match gongGetClient env client with
  | (.error e, client') => ((.error (.plain e), client'), 0)
  | (.ok _, client') =>
    match net with
    | .ok a => ((.ok a, client'), 1)
    | .error f => ((.error (.axios f), client'), 1)

/-- The module-level ZoomInfo token cache (`jwtToken` / `tokenExpiry` in
zoominfo-client.ts lines 12-13); the initial state is `⟨none, 0⟩`. -/
structure ZoomInfoAuthState where
  jwtToken : Option String
  tokenExpiry : Nat

/-- `authenticate` in zoominfo-client.ts lines 15-35: fail with a configuration
error when either secret is absent (before any network call); otherwise perform
the exchange (`authNet` is its outcome, one network call) and on success cache
the fresh token with expiry 55 minutes from now (the safety margin before the
nominal 60-minute validity). -/
def zoomInfoAuthenticate (env : Env) (now : Nat) (authNet : Except AxiosFailure String) :
    Except JsError (String × ZoomInfoAuthState) × Nat :=
  if !(jsTruthy env.ZOOMINFO_CLIENT_ID) || !(jsTruthy env.ZOOMINFO_PRIVATE_KEY) then
    (.error (.plain "ZoomInfo credentials not configured. Set ZOOMINFO_CLIENT_ID and ZOOMINFO_PRIVATE_KEY environment variables."),
      0)
  else
    match authNet with
    | .ok jwt => (.ok (jwt, ⟨some jwt, now + 55 * 60 * 1000⟩), 1)
    | .error f => (.error (.axios f), 1)

/-- `getToken` in zoominfo-client.ts lines 37-42: reuse the cached token when
it is truthy and the current time is strictly before the recorded expiry;
otherwise authenticate. -/
def zoomInfoGetToken (st : ZoomInfoAuthState) (env : Env) (now : Nat)
    (authNet : Except AxiosFailure String) :
    Except JsError (String × ZoomInfoAuthState) × Nat :=
  if jsTruthy st.jwtToken = true ∧ now < st.tokenExpiry then
    (.ok (st.jwtToken.getD "", st), 0)
  else
    zoomInfoAuthenticate env now authNet

/-- `zoomInfoPost` / `zoomInfoGet`: the request interceptor resolves a token,
then the request itself is sent (outcome `net`, one further network call). -/
def zoomInfoPost {α : Type} (env : Env) (st : ZoomInfoAuthState) (now : Nat)
    (authNet : Except AxiosFailure String) (net : Except AxiosFailure α) :
    (Except JsError α × ZoomInfoAuthState) × Nat :=
  match zoomInfoGetToken st env now authNet with
  | (.error e, k) => ((.error e, st), k)
  | (.ok (_, st'), k) =>
    match net with
    | .ok a => ((.ok a, st'), k + 1)
    | .error f => ((.error (.axios f), st'), k + 1)

/-- The lazily built Clay axios client. -/
structure ClayClient where
  authHeader : String

/-- `getClient` in clay-client.ts lines 14-34. -/
def clayGetClient (env : Env) (client : Option ClayClient) :
    Except String ClayClient × Option ClayClient :=
  match client with
  | some c => (.ok c, some c)
  | none =>
    if !(jsTruthy env.CLAY_API_KEY) then
      (.error "Clay credentials not configured. Set CLAY_API_KEY environment variable.", none)
    else
      let c : ClayClient := ⟨"Bearer " ++ env.CLAY_API_KEY.getD ""⟩
      (.ok c, some c)

/-- `clayPost` / `clayGet` (clay-client.ts lines 36-44). -/
def clayPost {α : Type} (env : Env) (client : Option ClayClient)
    (net : Except AxiosFailure α) : (Except JsError α × Option ClayClient) × Nat :=
  match clayGetClient env client with
  | (.error e, client') => ((.error (.plain e), client'), 0)
  | (.ok _, client') =>
    match net with
    | .ok a => ((.ok a, client'), 1)
    | .error f => ((.error (.axios f), client'), 1)

/-- The request issued to a Clay webhook: its URL and the optional
`x-clay-webhook-auth` header. -/
structure WebhookRequest where
  url : String
  webhookAuth : Option String

/-- `clayWebhookPost` (clay-client.ts lines 50-60): posts directly to the
webhook URL; the auth header is attached only when the key is truthy, and the
call is made either way — no configuration check guards it. -/
def clayWebhookPost {α : Type} (env : Env) (webhookUrl : String)
    (net : Except AxiosFailure α) : Except JsError (α × WebhookRequest) × Nat :=
  let req : WebhookRequest :=
    ⟨webhookUrl, if jsTruthy env.CLAY_API_KEY then env.CLAY_API_KEY else none⟩
  match net with
  | .ok a => (.ok (a, req), 1)
  | .error f => (.error (.axios f), 1)

/-- `getHeaders` in linkedin-client.ts lines 16-30: the bearer header derived
from the token, or a thrown configuration error. -/
def linkedInGetHeaders (env : Env) : Except String String :=
  if !(jsTruthy env.LINKEDIN_ACCESS_TOKEN) then
    .error ("LinkedIn credentials not configured. Set LINKEDIN_ACCESS_TOKEN environment variable. " ++
      "Requires LinkedIn SNAP partner access or a LinkedIn Sales Navigator API subscription.")
  else
    .ok ("Bearer " ++ env.LINKEDIN_ACCESS_TOKEN.getD "")

/-- `linkedInGet` (linkedin-client.ts lines 34-41): headers are computed before
the request is issued, so a configuration error precedes any network call. -/
def linkedInGet {α : Type} (env : Env) (net : Except AxiosFailure α) :
    Except JsError α × Nat :=
  match linkedInGetHeaders env with
  | .error e => (.error (.plain e), 0)
  | .ok _ =>
    match net with
    | .ok a => (.ok a, 1)
    | .error f => (.error (.axios f), 1)

/-- The MCP result envelope returned by every tool handler; handlers that omit
`isError` leave it `false`. -/
structure Envelope where
  text : String
  isError : Bool := false
deriving DecidableEq

/-- C10: the Gong client transitions Unbuilt to Built at most once — the first
call that finds both environment values builds and caches the client with its
fixed Basic header, and any call that finds a cached client returns it
unchanged no matter what the environment then holds. -/
theorem gongGetClient_build_once (env env2 : Env) (k s : String)
    (hk : env.GONG_ACCESS_KEY = some k) (hs : env.GONG_ACCESS_KEY_SECRET = some s)
    (hk0 : k ≠ "") (hs0 : s ≠ "") :
    gongGetClient env none
      = (.ok ⟨"Basic " ++ base64Encode (k ++ ":" ++ s)⟩,
          some ⟨"Basic " ++ base64Encode (k ++ ":" ++ s)⟩) ∧
    (∀ c : GongClient, gongGetClient env2 (some c) = (.ok c, some c)) := by
  constructor
  · unfold gongGetClient
    rw [hk, hs]
    simp [jsTruthy, hk0, hs0]
  · intro c
    rfl

/-- C10 witness: the build-once theorem applied at a concrete environment and a
concrete cached client. -/
theorem gongGetClient_build_once_witness :
    gongGetClient { GONG_ACCESS_KEY := some "k", GONG_ACCESS_KEY_SECRET := some "s" } none
      = (.ok ⟨"Basic " ++ base64Encode ("k" ++ ":" ++ "s")⟩,
          some ⟨"Basic " ++ base64Encode ("k" ++ ":" ++ "s")⟩) ∧
    gongGetClient {} (some ⟨"Basic abc"⟩) = (.ok ⟨"Basic abc"⟩, some ⟨"Basic abc"⟩) := by
  have h := gongGetClient_build_once
    { GONG_ACCESS_KEY := some "k", GONG_ACCESS_KEY_SECRET := some "s" } {} "k" "s"
    rfl rfl (by decide) (by decide)
  exact ⟨h.1, h.2 ⟨"Basic abc"⟩⟩

/-- C6: the JWT lifecycle — authentication at time `t` records expiry
`t + 55` minutes (the safety margin before the nominal 60-minute validity); a
cached token is reused, with no exchange, for every call issued strictly
before the recorded expiry; a call at or after the recorded expiry, or with no
cached token, performs a fresh authentication exchange. -/
theorem zoomInfoGetToken_expiry_spec (env : Env) (now t : Nat) (v jwt2 : String)
    (hv : v ≠ "")
    (hid : jsTruthy env.ZOOMINFO_CLIENT_ID = true)
    (hkey : jsTruthy env.ZOOMINFO_PRIVATE_KEY = true) :
    zoomInfoAuthenticate env t (.ok v) = (.ok (v, ⟨some v, t + 55 * 60 * 1000⟩), 1) ∧
    (now < t + 55 * 60 * 1000 →
      zoomInfoGetToken ⟨some v, t + 55 * 60 * 1000⟩ env now (.ok jwt2)
        = (.ok (v, ⟨some v, t + 55 * 60 * 1000⟩), 0)) ∧
    (t + 55 * 60 * 1000 ≤ now →
      zoomInfoGetToken ⟨some v, t + 55 * 60 * 1000⟩ env now (.ok jwt2)
        = (.ok (jwt2, ⟨some jwt2, now + 55 * 60 * 1000⟩), 1)) ∧
    zoomInfoGetToken ⟨none, 0⟩ env now (.ok jwt2)
      = (.ok (jwt2, ⟨some jwt2, now + 55 * 60 * 1000⟩), 1) := by
  have hauth : zoomInfoAuthenticate env now (.ok jwt2)
      = (.ok (jwt2, ⟨some jwt2, now + 55 * 60 * 1000⟩), 1) := by
    unfold zoomInfoAuthenticate
    rw [hid, hkey]
    simp
  have htr : jsTruthy (some v) = true := by simp [jsTruthy, hv]
  refine ⟨?_, ?_, ?_, ?_⟩
  · unfold zoomInfoAuthenticate
    rw [hid, hkey]
    simp
  · intro hlt
    unfold zoomInfoGetToken
    rw [if_pos ⟨htr, hlt⟩]
    rfl
  · intro hge
    unfold zoomInfoGetToken
    have hcond : ¬ (jsTruthy (some v) = true ∧
        now < (⟨some v, t + 55 * 60 * 1000⟩ : ZoomInfoAuthState).tokenExpiry) := by
      intro hc
      have h2 : now < t + 55 * 60 * 1000 := hc.2
      omega
    rw [if_neg hcond, hauth]
  · unfold zoomInfoGetToken
    rw [if_neg (by simp [jsTruthy]), hauth]

/-- C6 witness: the JWT lifecycle theorem applied at concrete times around the
recorded expiry. -/
theorem zoomInfoGetToken_expiry_spec_witness :
    zoomInfoGetToken ⟨some "tok", 0 + 55 * 60 * 1000⟩
        { ZOOMINFO_CLIENT_ID := some "id", ZOOMINFO_PRIVATE_KEY := some "pk" }
        3299999 (.ok "tok2")
      = (.ok ("tok", ⟨some "tok", 0 + 55 * 60 * 1000⟩), 0) ∧
    zoomInfoGetToken ⟨some "tok", 0 + 55 * 60 * 1000⟩
        { ZOOMINFO_CLIENT_ID := some "id", ZOOMINFO_PRIVATE_KEY := some "pk" }
        3300000 (.ok "tok2")
      = (.ok ("tok2", ⟨some "tok2", 3300000 + 55 * 60 * 1000⟩), 1) := by
  constructor
  · exact (zoomInfoGetToken_expiry_spec
      { ZOOMINFO_CLIENT_ID := some "id", ZOOMINFO_PRIVATE_KEY := some "pk" }
      3299999 0 "tok" "tok2" (by decide) (by decide) (by decide)).2.1 (by norm_num)
  · exact (zoomInfoGetToken_expiry_spec
      { ZOOMINFO_CLIENT_ID := some "id", ZOOMINFO_PRIVATE_KEY := some "pk" }
      3300000 0 "tok" "tok2" (by decide) (by decide) (by decide)).2.2.1 (by norm_num)

/- ── JSON rendering (JSON.stringify) ────────────────────────── -/

/-- Response format enum (constants.ts lines 19-22). -/
inductive ResponseFormat where
  | markdown
  | json
deriving DecidableEq

/-- A JSON value; the payloads flowing through these handlers are strings,
integers, booleans, arrays and objects. -/
inductive Json where
  | nul
  | bool (b : Bool)
  | num (n : Int)
  | str (s : String)
  | arr (xs : List Json)
  | obj (fields : List (String × Json))

/-- JSON string escaping for one character. -/
def jsonEscapeChar (c : Char) : List Char :=
  if c = '"' then ['\\', '"']
  else if c = '\\' then ['\\', '\\']
  else if c = '\n' then ['\\', 'n']
  else if c = '\t' then ['\\', 't']
  else if c = '\r' then ['\\', 'r']
  else [c]

/-- A JSON string literal. -/
def jsonQuote (s : String) : String :=
  "\"" ++ String.mk (s.data.foldr (fun c acc => jsonEscapeChar c ++ acc) []) ++ "\""

mutual

/-- `JSON.stringify(v)` with no indentation. -/
def Json.stringifyCompact : Json → String
  | .nul => "null"
  | .bool true => "true"
  | .bool false => "false"
  | .num n => intRepr n
  | .str s => jsonQuote s
  | .arr xs => "[" ++ Json.stringifyCompactItems xs ++ "]"
  | .obj fs => "\x7b" ++ Json.stringifyCompactFields fs ++ "\x7d"

/-- Comma-separated compact items. -/
def Json.stringifyCompactItems : List Json → String
  | [] => ""
  | [x] => Json.stringifyCompact x
  | x :: y :: rest => Json.stringifyCompact x ++ "," ++ Json.stringifyCompactItems (y :: rest)

/-- Comma-separated compact fields. -/
def Json.stringifyCompactFields : List (String × Json) → String
  | [] => ""
  | [(k, v)] => jsonQuote k ++ ":" ++ Json.stringifyCompact v
  | (k, v) :: f :: rest =>
    jsonQuote k ++ ":" ++ Json.stringifyCompact v ++ "," ++ Json.stringifyCompactFields (f :: rest)

end

/-- Indentation for pretty-printed JSON. -/
def jsonSpaces (n : Nat) : String := String.mk (List.replicate n ' ')

mutual

/-- `JSON.stringify(v, null, 2)` at the given current indentation. -/
def Json.stringifyPretty (ind : Nat) : Json → String
  | .nul => "null"
  | .bool true => "true"
  | .bool false => "false"
  | .num n => intRepr n
  | .str s => jsonQuote s
  | .arr [] => "[]"
  | .arr (x :: xs) =>
    "[\n" ++ Json.stringifyPrettyItems (ind + 2) (x :: xs) ++ "\n" ++ jsonSpaces ind ++ "]"
  | .obj [] => "\x7b\x7d"
  | .obj (f :: fs) =>
    "\x7b\n" ++ Json.stringifyPrettyFields (ind + 2) (f :: fs) ++ "\n" ++ jsonSpaces ind ++ "\x7d"

/-- Pretty-printed array items, one per line. -/
def Json.stringifyPrettyItems (ind : Nat) : List Json → String
  | [] => ""
  | [x] => jsonSpaces ind ++ Json.stringifyPretty ind x
  | x :: y :: rest =>
    jsonSpaces ind ++ Json.stringifyPretty ind x ++ ",\n" ++ Json.stringifyPrettyItems ind (y :: rest)

/-- Pretty-printed object fields, one per line. -/
def Json.stringifyPrettyFields (ind : Nat) : List (String × Json) → String
  | [] => ""
  | [(k, v)] => jsonSpaces ind ++ jsonQuote k ++ ": " ++ Json.stringifyPretty ind v
  | (k, v) :: f :: rest =>
    jsonSpaces ind ++ jsonQuote k ++ ": " ++ Json.stringifyPretty ind v ++ ",\n" ++
      Json.stringifyPrettyFields ind (f :: rest)

end

/- ── Dispatcher wrappers and claim C1 ───────────────────────── -/

/-- The uniform try/catch of a Gong tool handler after validation: one adapter
call, a render of the successful result, or the normalized error envelope. -/
def invokeGongTool {α : Type} (env : Env) (client : Option GongClient)
    (net : Except AxiosFailure α) (render : α → String) :
    (Envelope × Option GongClient) × Nat :=
  match gongPost env client net with
  | ((.ok a, client'), k) => ((⟨render a, false⟩, client'), k)
  | ((.error e, client'), k) => ((⟨handleApiError e "Gong", true⟩, client'), k)

/-- The uniform try/catch of a ZoomInfo tool handler after validation. -/
def invokeZoomInfoTool {α : Type} (env : Env) (st : ZoomInfoAuthState) (now : Nat)
    (authNet : Except AxiosFailure String) (net : Except AxiosFailure α)
    (render : α → String) : (Envelope × ZoomInfoAuthState) × Nat :=
  match zoomInfoPost env st now authNet net with
  | ((.ok a, st'), k) => ((⟨render a, false⟩, st'), k)
  | ((.error e, st'), k) => ((⟨handleApiError e "ZoomInfo", true⟩, st'), k)

/-- The uniform try/catch of a Clay tool handler (clayPost path). -/
def invokeClayTool {α : Type} (env : Env) (client : Option ClayClient)
    (net : Except AxiosFailure α) (render : α → String) :
    (Envelope × Option ClayClient) × Nat :=
  match clayPost env client net with
  | ((.ok a, client'), k) => ((⟨render a, false⟩, client'), k)
  | ((.error e, client'), k) => ((⟨handleApiError e "Clay", true⟩, client'), k)

/-- The uniform try/catch of a LinkedIn tool handler. -/
def invokeLinkedInTool {α : Type} (env : Env) (net : Except AxiosFailure α)
    (render : α → String) : Envelope × Nat :=
  match linkedInGet env net with
  | (.ok a, k) => (⟨render a, false⟩, k)
  | (.error e, k) => (⟨handleApiError e "LinkedIn", true⟩, k)

/-- C1 (amended): for every tool operation routed through a client-building
adapter — Gong, ZoomInfo, Clay via clayPost/clayGet, LinkedIn — invoking it
while the backend credential variables are absent yields an error envelope
carrying the prefixed configuration message, with zero outbound network calls.
(The Clay webhook path is the exception, established by the counterexample.) -/
theorem unconfiguredBackend_error_no_network (env : Env) (now : Nat)
    (authNet : Except AxiosFailure String)
    {α : Type} (net : Except AxiosFailure α) (render : α → String)
    (hg : jsTruthy env.GONG_ACCESS_KEY = false)
    (hz : jsTruthy env.ZOOMINFO_CLIENT_ID = false)
    (hc : jsTruthy env.CLAY_API_KEY = false)
    (hl : jsTruthy env.LINKEDIN_ACCESS_TOKEN = false) :
    (invokeGongTool env none net render).1.1
        = ⟨"Gong Error: Gong credentials not configured. Set GONG_ACCESS_KEY and GONG_ACCESS_KEY_SECRET environment variables.", true⟩ ∧
    (invokeGongTool env none net render).2 = 0 ∧
    (invokeZoomInfoTool env ⟨none, 0⟩ now authNet net render).1.1
        = ⟨"ZoomInfo Error: ZoomInfo credentials not configured. Set ZOOMINFO_CLIENT_ID and ZOOMINFO_PRIVATE_KEY environment variables.", true⟩ ∧
    (invokeZoomInfoTool env ⟨none, 0⟩ now authNet net render).2 = 0 ∧
    (invokeClayTool env none net render).1.1
        = ⟨"Clay Error: Clay credentials not configured. Set CLAY_API_KEY environment variable.", true⟩ ∧
    (invokeClayTool env none net render).2 = 0 ∧
    (invokeLinkedInTool env net render).1
        = ⟨"LinkedIn Error: LinkedIn credentials not configured. Set LINKEDIN_ACCESS_TOKEN environment variable. Requires LinkedIn SNAP partner access or a LinkedIn Sales Navigator API subscription.", true⟩ ∧
    (invokeLinkedInTool env net render).2 = 0 := by
  have hgong : gongGetClient env none
      = (.error "Gong credentials not configured. Set GONG_ACCESS_KEY and GONG_ACCESS_KEY_SECRET environment variables.", none) := by
    unfold gongGetClient
    rw [hg]
    simp
  have hzoom : zoomInfoGetToken ⟨none, 0⟩ env now authNet
      = (.error (.plain "ZoomInfo credentials not configured. Set ZOOMINFO_CLIENT_ID and ZOOMINFO_PRIVATE_KEY environment variables."), 0) := by
    unfold zoomInfoGetToken zoomInfoAuthenticate
    rw [hz]
    simp [jsTruthy]
  have hclay : clayGetClient env none
      = (.error "Clay credentials not configured. Set CLAY_API_KEY environment variable.", none) := by
    unfold clayGetClient
    rw [hc]
    simp
  have hlink : linkedInGetHeaders env
      = .error ("LinkedIn credentials not configured. Set LINKEDIN_ACCESS_TOKEN environment variable. " ++
          "Requires LinkedIn SNAP partner access or a LinkedIn Sales Navigator API subscription.") := by
    unfold linkedInGetHeaders
    rw [hl]
    simp
  refine ⟨?_, ?_, ?_, ?_, ?_, ?_, ?_, ?_⟩ <;>
    simp [invokeGongTool, invokeZoomInfoTool, invokeClayTool, invokeLinkedInTool,
      gongPost, zoomInfoPost, clayPost, linkedInGet, hgong, hzoom, hclay, hlink,
      handleApiError]

/-- C1 witness: the amended theorem applied at the empty environment. -/
theorem unconfiguredBackend_error_no_network_witness :
    (invokeGongTool ({} : Env) none (.ok "resp") id).1.1
        = ⟨"Gong Error: Gong credentials not configured. Set GONG_ACCESS_KEY and GONG_ACCESS_KEY_SECRET environment variables.", true⟩ ∧
    (invokeGongTool ({} : Env) none (.ok "resp") id).2 = 0 ∧
    (invokeClayTool ({} : Env) none (.ok "resp") id).2 = 0 := by
  have h := unconfiguredBackend_error_no_network {} 0 (.ok "jwt") (.ok "resp") id
    rfl rfl rfl rfl
  exact ⟨h.1, h.2.1, h.2.2.2.2.2.1⟩

/- ── clay_trigger_enrichment (clay-tools.ts 231-270) ────────── -/

/-- Validated arguments of clay_trigger_enrichment. -/
structure ClayTriggerParams where
  webhook_url : String
  data : Json
  response_format : ResponseFormat

/-- The clay_trigger_enrichment handler: posts to the webhook (no
configuration guard on that path) and renders a confirmation. -/
def clayTriggerEnrichment (env : Env) (p : ClayTriggerParams)
    (net : Except AxiosFailure Json) : Envelope × Nat :=
  match clayWebhookPost env p.webhook_url net with
  | (.error e, k) => (⟨handleApiError e "Clay", true⟩, k)
  | (.ok (result, _), k) =>
    if p.response_format = ResponseFormat.json then
      (⟨Json.stringifyPretty 0 (Json.obj
          [("status", .str "submitted"), ("webhook", .str p.webhook_url),
            ("data", p.data), ("response", result)]), false⟩, k)
    else
      (⟨String.intercalate "\n"
          ["# Clay Enrichment Triggered\n",
            "**Webhook**: " ++ p.webhook_url,
            "**Data Sent**: " ++ Json.stringifyCompact p.data,
            "",
            "Data has been submitted to the Clay table. Enrichment runs asynchronously — check your Clay table for results."],
        false⟩, k)

/-- C1 counterexample: with no Clay credential configured,
clay_trigger_enrichment still performs its outbound webhook call (one network
call) and returns a success envelope, not a configuration error envelope. -/
theorem clayTriggerEnrichment_unconfigured_counterexample :
    (clayTriggerEnrichment {} ⟨"https://clay.example/wh", Json.obj [], ResponseFormat.markdown⟩
        (.ok (Json.obj []))).1.isError = false ∧
    (clayTriggerEnrichment {} ⟨"https://clay.example/wh", Json.obj [], ResponseFormat.markdown⟩
        (.ok (Json.obj []))).2 = 1 := by
  constructor
  · rfl
  · rfl

/- ── Shared rendering helpers ───────────────────────────────── -/

/-- A possibly-absent string as JavaScript template interpolation sees it. -/
def optStr (o : Option String) : String := o.getD ""

/-- `n.toLocaleString()` under the default en-US locale: decimal digits with a
comma before each group of three, counted from the right.  The fuel is the
digit count, so the recursion is structural. -/
def localeGroupAux : Nat → List Char → List Char
  | 0, ds => ds
  | fuel + 1, ds =>
    if ds.length ≤ 3 then ds
    else localeGroupAux fuel (ds.take (ds.length - 3)) ++ ',' :: ds.drop (ds.length - 3)

/-- `n.toLocaleString()`. -/
def localeString (n : Nat) : String :=
  String.mk (localeGroupAux (natRepr n).data.length (natRepr n).data)

/-- `(r / 1e6).toFixed(1)` for an integral revenue `r` (exact in double
precision for the magnitudes at hand): millions rounded to one decimal. -/
def revenueToFixed1 (r : Nat) : String :=
  let tenths := (r + 50000) / 100000
  natRepr (tenths / 10) ++ "." ++ natRepr (tenths % 10)

/-- An optional string field of a serialized JSON object (`JSON.stringify`
omits `undefined` fields). -/
def jsonOptField (k : String) (v : Option String) : List (String × Json) :=
  match v with
  | none => []
  | some s => [(k, Json.str s)]

/-- An optional numeric field of a serialized JSON object. -/
def jsonOptNumField (k : String) (v : Option Nat) : List (String × Json) :=
  match v with
  | none => []
  | some n => [(k, Json.num n)]

/- ── clay_enrich_person (clay-tools.ts 119-154) ─────────────── -/

/-- Clay person enrichment payload (types.ts). -/
structure ClayPersonEnrichment where
  fullName : Option String := none
  firstName : Option String := none
  lastName : Option String := none
  email : Option String := none
  phone : Option String := none
  jobTitle : Option String := none
  company : Option String := none
  companyDomain : Option String := none
  linkedInUrl : Option String := none
  location : Option String := none
  bio : Option String := none

/-- formatPersonMarkdown (clay-tools.ts lines 57-71): conditional lines,
falsy entries filtered out, joined with newlines. -/
def formatPersonMarkdown (p : ClayPersonEnrichment) : String :=
  String.intercalate "\n" (List.filter (fun s => s != "")
    ["## " ++ jsOr (optStr p.fullName)
        (jsOr (String.intercalate " "
            (List.filter (fun s => s != "") [optStr p.firstName, optStr p.lastName]))
          "Unknown"),
      if jsTruthy p.jobTitle then "- **Title**: " ++ optStr p.jobTitle else "",
      if jsTruthy p.company then "- **Company**: " ++ optStr p.company else "",
      if jsTruthy p.email then "- **Email**: " ++ optStr p.email else "",
      if jsTruthy p.phone then "- **Phone**: " ++ optStr p.phone else "",
      if jsTruthy p.linkedInUrl then "- **LinkedIn**: " ++ optStr p.linkedInUrl else "",
      if jsTruthy p.location then "- **Location**: " ++ optStr p.location else "",
      if jsTruthy p.bio then "- **Bio**: " ++ jsSubstring (optStr p.bio) 300 else "",
      ""])

/-- The `JSON.stringify` view of a person enrichment (absent fields omitted,
declaration order). -/
def ClayPersonEnrichment.toJson (p : ClayPersonEnrichment) : Json :=
  .obj (jsonOptField "fullName" p.fullName ++ jsonOptField "firstName" p.firstName ++
    jsonOptField "lastName" p.lastName ++ jsonOptField "email" p.email ++
    jsonOptField "phone" p.phone ++ jsonOptField "jobTitle" p.jobTitle ++
    jsonOptField "company" p.company ++ jsonOptField "companyDomain" p.companyDomain ++
    jsonOptField "linkedInUrl" p.linkedInUrl ++ jsonOptField "location" p.location ++
    jsonOptField "bio" p.bio)

/-- Validated arguments of clay_enrich_person. -/
structure ClayEnrichPersonParams where
  email : Option String := none
  linkedin_url : Option String := none
  first_name : Option String := none
  last_name : Option String := none
  company_domain : Option String := none
  response_format : ResponseFormat := ResponseFormat.markdown

/-- The clay_enrich_person handler (clay-tools.ts lines 119-154): argument
check, clayPost, empty-data check, then a json or markdown rendering — the
markdown text is returned with no governor pass. -/
def clayEnrichPerson (env : Env) (client : Option ClayClient)
    (p : ClayEnrichPersonParams)
    (net : Except AxiosFailure (Option ClayPersonEnrichment)) :
    (Envelope × Option ClayClient) × Nat :=
  if ¬ (jsTruthy p.email = true ∨ jsTruthy p.linkedin_url = true ∨
      (jsTruthy p.first_name = true ∧ jsTruthy p.last_name = true)) then
    ((⟨"Error: Provide at least email, linkedin_url, or first_name + last_name.", true⟩,
      client), 0)
  else
    match clayPost env client net with
    | ((.error e, client'), k) => ((⟨handleApiError e "Clay", true⟩, client'), k)
    | ((.ok odata, client'), k) =>
      match odata with
      | none => ((⟨"No enrichment data found for this person.", false⟩, client'), k)
      | some data =>
        if ¬ (jsTruthy data.fullName = true ∨ jsTruthy data.email = true) then
          ((⟨"No enrichment data found for this person.", false⟩, client'), k)
        else if p.response_format = ResponseFormat.json then
          ((⟨Json.stringifyPretty 0 data.toJson, false⟩, client'), k)
        else
          ((⟨"# Person Enrichment\n\n" ++ formatPersonMarkdown data, false⟩, client'), k)

/- ── zoominfo_search_company (zoominfo-tools.ts 152-195) ────── -/

/-- ZoomInfo company payload as the handler reads it (types.ts; the handler
accesses fields defensively, hence the options). -/
structure ZoomInfoCompany where
  id : Int
  name : String
  website : Option String := none
  industry : Option String := none
  subIndustry : Option String := none
  employees : Option Nat := none
  revenue : Option Nat := none
  revenueRange : Option String := none
  city : Option String := none
  state : Option String := none
  country : Option String := none
  description : Option String := none
  foundedYear : Option Nat := none

/-- formatCompanyMarkdown (zoominfo-tools.ts lines 87-101). -/
def formatCompanyMarkdown (c : ZoomInfoCompany) : String :=
  String.intercalate "\n" (List.filter (fun s => s != "")
    ["### " ++ c.name ++ " (ID: " ++ intRepr c.id ++ ")",
      "- **Website**: " ++ jsOr (optStr c.website) "N/A",
      "- **Industry**: " ++ jsOr (optStr c.industry) "N/A" ++
        (if jsTruthy c.subIndustry then " / " ++ optStr c.subIndustry else ""),
      "- **Employees**: " ++
        jsOr (match c.employees with | none => "" | some n => localeString n) "N/A",
      "- **Revenue**: " ++
        (match c.revenue with
          | some r =>
            if r = 0 then jsOr (optStr c.revenueRange) "N/A"
            else "$" ++ revenueToFixed1 r ++ "M"
          | none => jsOr (optStr c.revenueRange) "N/A"),
      "- **Location**: " ++ jsOr (String.intercalate ", " (List.filter (fun s => s != "")
        [optStr c.city, optStr c.state, optStr c.country])) "N/A",
      "- **Founded**: " ++
        (match c.foundedYear with | none => "N/A" | some 0 => "N/A" | some y => natRepr y),
      if jsTruthy c.description then
        "- **Description**: " ++ jsSubstring (optStr c.description) 200 ++ "..."
      else "",
      ""])

/-- The `JSON.stringify` view of a company (absent fields omitted). -/
def ZoomInfoCompany.toJson (c : ZoomInfoCompany) : Json :=
  .obj ([("id", Json.num c.id), ("name", Json.str c.name)] ++
    jsonOptField "website" c.website ++ jsonOptField "industry" c.industry ++
    jsonOptField "subIndustry" c.subIndustry ++
    jsonOptNumField "employees" c.employees ++ jsonOptNumField "revenue" c.revenue ++
    jsonOptField "revenueRange" c.revenueRange ++ jsonOptField "city" c.city ++
    jsonOptField "state" c.state ++ jsonOptField "country" c.country ++
    jsonOptField "description" c.description ++
    jsonOptNumField "foundedYear" c.foundedYear)

/-- Vendor response shape of `/search/company`. -/
structure ZoomInfoCompanyResponse where
  data : Option (List ZoomInfoCompany) := none
  maxResults : Option Nat := none

/-- Validated arguments of zoominfo_search_company. -/
structure ZoomInfoSearchCompanyParams where
  company_name : Option String := none
  domain : Option String := none
  industry : Option String := none
  min_employees : Option Nat := none
  max_employees : Option Nat := none
  min_revenue : Option Nat := none
  country : Option String := none
  limit : Nat := 20
  page : Nat := 1
  response_format : ResponseFormat := ResponseFormat.markdown

/-- The markdown digest rendered by zoominfo_search_company before the
governor pass (zoominfo-tools.ts lines 186-190). -/
def zoomInfoSearchCompanyMarkdown (p : ZoomInfoSearchCompanyParams)
    (data : ZoomInfoCompanyResponse) (companies : List ZoomInfoCompany) : String :=
  String.intercalate "\n"
    (["# ZoomInfo Company Search",
      "Found **" ++ natRepr (jsOrNat data.maxResults companies.length) ++
        "** companies (page " ++ natRepr p.page ++ ").\n"] ++
      companies.map formatCompanyMarkdown)

/-- The zoominfo_search_company handler (zoominfo-tools.ts lines 152-195). -/
def zoomInfoSearchCompany (env : Env) (st : ZoomInfoAuthState) (now : Nat)
    (authNet : Except AxiosFailure String)
    (net : Except AxiosFailure ZoomInfoCompanyResponse)
    (p : ZoomInfoSearchCompanyParams) : (Envelope × ZoomInfoAuthState) × Nat :=
  match zoomInfoPost env st now authNet net with
  | ((.error e, st'), k) => ((⟨handleApiError e "ZoomInfo", true⟩, st'), k)
  | ((.ok data, st'), k) =>
    let companies := data.data.getD []
    if companies.length = 0 then
      ((⟨"No companies found matching your criteria.", false⟩, st'), k)
    else if p.response_format = ResponseFormat.json then
      ((⟨Json.stringifyPretty 0 (Json.obj
          [("total", Json.num (jsOrNat data.maxResults companies.length)),
            ("count", Json.num companies.length),
            ("page", Json.num p.page),
            ("companies", Json.arr (companies.map ZoomInfoCompany.toJson))]),
        false⟩, st'), k)
    else
      ((⟨truncateResponse (zoomInfoSearchCompanyMarkdown p data companies) CHARACTER_LIMIT,
        false⟩, st'), k)

/- ── gong_search_calls (gong-tools.ts 93-131) ───────────────── -/

/-- Gong call participant (types.ts). -/
structure GongParty where
  id : String := ""
  emailAddress : Option String := none
  name : Option String := none
  title : Option String := none
  affiliation : Option String := none

/-- Gong call metadata as the handlers read it (types.ts; the handlers access
`parties` defensively). -/
structure GongCall where
  id : String
  title : String := ""
  started : String := ""
  duration : Nat := 0
  url : String := ""
  direction : String := ""
  parties : Option (List GongParty) := none

/-- formatDuration (gong-tools.ts lines 44-48). -/
def formatDuration (seconds : Nat) : String :=
  natRepr (seconds / 60) ++ "m " ++ natRepr (seconds % 60) ++ "s"

/-- formatCallMarkdown (gong-tools.ts lines 49-63). -/
def formatCallMarkdown (call : GongCall) : String :=
  let parties := String.intercalate ", " ((call.parties.getD []).map (fun p =>
    jsOr (optStr p.name) "Unknown" ++ " (" ++ jsOr (optStr p.affiliation) "external" ++ ")" ++
      (if jsTruthy p.title then " — " ++ optStr p.title else "")))
  String.intercalate "\n"
    ["### " ++ jsOr call.title "Untitled Call",
      "- **ID**: " ++ call.id,
      "- **Date**: " ++ call.started,
      "- **Duration**: " ++ formatDuration call.duration,
      "- **Direction**: " ++ jsOr call.direction "N/A",
      "- **Participants**: " ++ jsOr parties "N/A",
      "- **URL**: " ++ jsOr call.url "N/A",
      ""]

/-- Pagination record of the `/calls` response. -/
structure GongRecords where
  totalRecords : Option Nat := none
  cursor : Option String := none

/-- Vendor response shape of `/calls`. -/
structure GongCallsResponse where
  calls : Option (List GongCall) := none
  records : Option GongRecords := none

/-- Validated arguments of gong_search_calls. -/
structure GongSearchCallsParams where
  from_date : String
  to_date : String
  workspace_id : Option String := none
  cursor : Option String := none
  response_format : ResponseFormat := ResponseFormat.markdown

/-- The `JSON.stringify` view of a party. -/
def GongParty.toJson (p : GongParty) : Json :=
  .obj ([("id", Json.str p.id)] ++ jsonOptField "emailAddress" p.emailAddress ++
    jsonOptField "name" p.name ++ jsonOptField "title" p.title ++
    jsonOptField "affiliation" p.affiliation)

/-- The `JSON.stringify` view of a call. -/
def GongCall.toJson (c : GongCall) : Json :=
  .obj [("id", Json.str c.id), ("title", Json.str c.title),
    ("started", Json.str c.started), ("duration", Json.num c.duration),
    ("url", Json.str c.url), ("direction", Json.str c.direction),
    ("parties", match c.parties with
      | none => Json.nul
      | some ps => Json.arr (ps.map GongParty.toJson))]

/-- The gong_search_calls handler (gong-tools.js lines 93-131). -/
def gongSearchCalls (env : Env) (client : Option GongClient)
    (net : Except AxiosFailure GongCallsResponse) (p : GongSearchCallsParams) :
    (Envelope × Option GongClient) × Nat :=
  match gongPost env client net with
  | ((.error e, client'), k) => ((⟨handleApiError e "Gong", true⟩, client'), k)
  | ((.ok data, client'), k) =>
    let calls := data.calls.getD []
    if calls.length = 0 then
      ((⟨"No calls found in the specified date range.", false⟩, client'), k)
    else if p.response_format = ResponseFormat.json then
      ((⟨Json.stringifyPretty 0 (Json.obj
          [("total", Json.num (jsOrNat (data.records.bind GongRecords.totalRecords) calls.length)),
            ("count", Json.num calls.length),
            ("next_cursor", match data.records.bind GongRecords.cursor with
              | none => Json.nul
              | some cur => if cur = "" then Json.nul else Json.str cur),
            ("calls", Json.arr (calls.map GongCall.toJson))]), false⟩, client'), k)
    else
      let lines := ["# Gong Calls (" ++ p.from_date ++ " to " ++ p.to_date ++ ")",
          "Found **" ++
            natRepr (jsOrNat (data.records.bind GongRecords.totalRecords) calls.length) ++
            "** calls.\n"] ++ calls.map formatCallMarkdown ++
        (match data.records.bind GongRecords.cursor with
          | none => []
          | some cur =>
            if cur = "" then []
            else ["\n---\n*More results available. Use cursor:* `" ++ cur ++ "`"])
      ((⟨truncateResponse (String.intercalate "\n" lines) CHARACTER_LIMIT, false⟩, client'), k)

/- ── Strict input schemas (claim C7) ────────────────────────── -/

/-- Declared keys of SearchLeadsSchema (linkedin-tools.ts lines 21-41). -/
def searchLeadsSchemaKeys : List String :=
  ["keywords", "first_name", "last_name", "title", "company_name", "industry",
    "geography", "seniority", "limit", "offset", "response_format"]

/-- Declared keys of SearchCompanySchema (zoominfo-tools.ts lines 17-39). -/
def searchCompanySchemaKeys : List String :=
  ["company_name", "domain", "industry", "min_employees", "max_employees",
    "min_revenue", "country", "limit", "page", "response_format"]

/-- Modelled from the behaviour of zod `.strict()` object schemas (an external
library dependency): parsing rejects an input that carries any key not in the
declared key set. -/
def strictParseRejects (declared : List String) (inputKeys : List String) : Bool :=
  inputKeys.any (fun k => !(declared.contains k))

/-- Modelled from the MCP SDK dispatch (an external library dependency): the
tool handler runs only after schema validation succeeds; a strict-schema
rejection becomes an error envelope before the handler, hence before any
network call. -/
def dispatchStrictTool (declared : List String) (inputKeys : List String)
    (handler : Unit → Envelope × Nat) : Envelope × Nat :=
  if strictParseRejects declared inputKeys then
    (⟨"Invalid arguments: unrecognized key", true⟩, 0)
  else handler ()

/- ── Claim C2: governor coverage ────────────────────────────── -/

/-- Large person name used to exhibit the governor bypass. -/
def bigPersonName : String := String.mk (List.replicate 26000 'a')

theorem bigPersonName_length : bigPersonName.length = 26000 := by
  show (List.replicate 26000 'a').length = 26000
  exact List.length_replicate ..

theorem bigPersonName_ne_empty : bigPersonName ≠ "" := by
  intro h
  have hl := congrArg String.length h
  rw [bigPersonName_length] at hl
  exact absurd hl (by decide)

/-- Enrichment payload carrying the oversized name. -/
def bigPerson : ClayPersonEnrichment := { fullName := some bigPersonName }

/-- Arguments for the counterexample invocation. -/
def bigPersonParams : ClayEnrichPersonParams := { email := some "x@y.com" }

theorem clayEnrichPerson_big_text :
    (clayEnrichPerson {} (some ⟨"Bearer key"⟩) bigPersonParams (.ok (some bigPerson))).1.1.text
      = "# Person Enrichment\n\n" ++ ("## " ++ bigPersonName) := rfl

/-- C2 counterexample: the markdown text returned by clay_enrich_person is not
passed through the Response Governor — on this input the returned text exceeds
the fixed limit and differs from its own truncation. -/
theorem clayEnrichPerson_bypasses_governor :
    CHARACTER_LIMIT <
      ((clayEnrichPerson {} (some ⟨"Bearer key"⟩) bigPersonParams
        (.ok (some bigPerson))).1.1.text).length ∧
    (clayEnrichPerson {} (some ⟨"Bearer key"⟩) bigPersonParams
        (.ok (some bigPerson))).1.1.text
      ≠ truncateResponse
          ((clayEnrichPerson {} (some ⟨"Bearer key"⟩) bigPersonParams
            (.ok (some bigPerson))).1.1.text)
          CHARACTER_LIMIT := by
  have htext := clayEnrichPerson_big_text
  have h21 : ("# Person Enrichment\n\n" : String).length = 21 := rfl
  have h3 : ("## " : String).length = 3 := rfl
  have hlen : ((clayEnrichPerson {} (some ⟨"Bearer key"⟩) bigPersonParams
      (.ok (some bigPerson))).1.1.text).length = 26024 := by
    rw [htext, String.length_append, String.length_append, bigPersonName_length, h21, h3]
  have hgt : CHARACTER_LIMIT < 26024 := by decide
  refine ⟨by rw [hlen]; exact hgt, ?_⟩
  intro heq
  have hL := congrArg String.length heq
  rw [truncateResponse_length_of_gt _ (by rw [hlen]; exact hgt), hlen] at hL
  have h5 : (natRepr 26024).length = 5 := rfl
  rw [h5] at hL
  omega

theorem zoomInfoPost_cached {α : Type} (env : Env) (st : ZoomInfoAuthState) (now : Nat)
    (authNet : Except AxiosFailure String) (a : α)
    (htok : jsTruthy st.jwtToken = true) (hnow : now < st.tokenExpiry) :
    zoomInfoPost env st now authNet (.ok a) = ((.ok a, st), 1) := by
  unfold zoomInfoPost zoomInfoGetToken
  rw [if_pos ⟨htok, hnow⟩]

/-- C2 (amended): the markdown digest of zoominfo_search_company is passed
through the Response Governor, so its returned text never exceeds the fixed
limit; the clay_enrich_person markdown path (like the json paths and
gong_get_call_stats) returns the rendered text unchanged, bypassing the
governor. -/
theorem governor_coverage_spec (env : Env) (st : ZoomInfoAuthState) (now : Nat)
    (authNet : Except AxiosFailure String) (data : ZoomInfoCompanyResponse)
    (p : ZoomInfoSearchCompanyParams) (cc : ClayClient)
    (q : ClayEnrichPersonParams) (d : ClayPersonEnrichment)
    (hfmt : p.response_format = ResponseFormat.markdown)
    (hcomp : (data.data.getD []).length ≠ 0)
    (hlen : (zoomInfoSearchCompanyMarkdown p data (data.data.getD [])).length < 10 ^ 118)
    (htok : jsTruthy st.jwtToken = true) (hnow : now < st.tokenExpiry)
    (hval : jsTruthy q.email = true) (hdat : jsTruthy d.fullName = true)
    (hqfmt : q.response_format = ResponseFormat.markdown) :
    ((zoomInfoSearchCompany env st now authNet (.ok data) p).1.1.text).length
        ≤ CHARACTER_LIMIT ∧
    (clayEnrichPerson env (some cc) q (.ok (some d))).1.1.text
      = "# Person Enrichment\n\n" ++ formatPersonMarkdown d := by
  constructor
  · have hres : (zoomInfoSearchCompany env st now authNet (.ok data) p).1.1.text
        = truncateResponse (zoomInfoSearchCompanyMarkdown p data (data.data.getD []))
            CHARACTER_LIMIT := by
      unfold zoomInfoSearchCompany
      rw [zoomInfoPost_cached env st now authNet data htok hnow]
      simp only [if_neg hcomp, hfmt]
      simp
    rw [hres]
    by_cases hle : (zoomInfoSearchCompanyMarkdown p data (data.data.getD [])).length
        ≤ CHARACTER_LIMIT
    · rw [(truncateResponse_spec _).1 hle]
      exact hle
    · push_neg at hle
      rw [truncateResponse_length_of_gt _ hle]
      have hn : (zoomInfoSearchCompanyMarkdown p data (data.data.getD [])).length ≠ 0 := by
        have hc : CHARACTER_LIMIT = 25000 := rfl
        omega
      have hdig := natRepr_length_le _ 118 hn hlen
      have hc : CHARACTER_LIMIT = 25000 := rfl
      omega
  · unfold clayEnrichPerson
    rw [if_neg (not_not_intro (Or.inl hval))]
    have hpost : clayPost env (some cc)
        (Except.ok (α := Option ClayPersonEnrichment) (some d))
        = ((.ok (some d), some cc), 1) := rfl
    rw [hpost]
    simp only [if_neg (not_not_intro (Or.inl hdat)), hqfmt]
    simp

set_option maxRecDepth 8192 in
/-- C2 witness: the amended governor theorem at a concrete company search and a
concrete person enrichment. -/
theorem governor_coverage_spec_witness :
    ((zoomInfoSearchCompany {} ⟨some "tok", 10⟩ 0 (.ok "j")
        (.ok ⟨some [{ id := 1, name := "Acme" }], none⟩) {}).1.1.text).length
      ≤ CHARACTER_LIMIT ∧
    (clayEnrichPerson {} (some ⟨"Bearer key"⟩) { email := some "e" }
        (.ok (some { fullName := some "Jane" }))).1.1.text
      = "# Person Enrichment\n\n" ++ formatPersonMarkdown { fullName := some "Jane" } := by
  exact governor_coverage_spec {} ⟨some "tok", 10⟩ 0 (.ok "j")
    ⟨some [{ id := 1, name := "Acme" }], none⟩ {} ⟨"Bearer key"⟩
    { email := some "e" } { fullName := some "Jane" }
    rfl (by decide) (by decide) (by decide) (by decide) (by decide) (by decide) rfl

/- ── Claim C7: strict schema rejection ──────────────────────── -/

/-- C7: for the strict schemas, any input carrying one undeclared key is
rejected into an error envelope before the handler runs, with zero network
calls. -/
theorem strictSchema_rejects_undeclared (inputKeys : List String) (k : String)
    (handler handler2 : Unit → Envelope × Nat)
    (hk : k ∈ inputKeys)
    (h1 : k ∉ searchLeadsSchemaKeys) (h2 : k ∉ searchCompanySchemaKeys) :
    ((dispatchStrictTool searchLeadsSchemaKeys inputKeys handler).1.isError = true ∧
      (dispatchStrictTool searchLeadsSchemaKeys inputKeys handler).2 = 0) ∧
    ((dispatchStrictTool searchCompanySchemaKeys inputKeys handler2).1.isError = true ∧
      (dispatchStrictTool searchCompanySchemaKeys inputKeys handler2).2 = 0) := by
  have hrej : ∀ d : List String, k ∉ d → strictParseRejects d inputKeys = true := by
    intro d hkd
    unfold strictParseRejects
    rw [List.any_eq_true]
    refine ⟨k, hk, ?_⟩
    simp [hkd]
  constructor
  · unfold dispatchStrictTool
    rw [if_pos (hrej _ h1)]
    exact ⟨rfl, rfl⟩
  · unfold dispatchStrictTool
    rw [if_pos (hrej _ h2)]
    exact ⟨rfl, rfl⟩

/-- C7 witness: a concrete input with the undeclared key `bogus`. -/
theorem strictSchema_rejects_undeclared_witness :
    (dispatchStrictTool searchLeadsSchemaKeys ["keywords", "bogus"]
        (fun _ => (⟨"ok", false⟩, 1))).1.isError = true ∧
    (dispatchStrictTool searchLeadsSchemaKeys ["keywords", "bogus"]
        (fun _ => (⟨"ok", false⟩, 1))).2 = 0 ∧
    (dispatchStrictTool searchCompanySchemaKeys ["keywords", "bogus"]
        (fun _ => (⟨"ok", false⟩, 1))).2 = 0 := by
  have h := strictSchema_rejects_undeclared ["keywords", "bogus"] "bogus"
    (fun _ => (⟨"ok", false⟩, 1)) (fun _ => (⟨"ok", false⟩, 1))
    (by decide) (by decide) (by decide)
  exact ⟨h.1.1, h.1.2, h.2.2⟩

/- ── Claim C8: empty results are not errors ─────────────────── -/

/-- C8: a search-style operation whose backend result set is empty or absent
returns a non-error envelope with a descriptive no-results message — shown for
gong_search_calls and zoominfo_search_company. -/
theorem searchTools_empty_not_error (env : Env) (c : GongClient)
    (st : ZoomInfoAuthState) (now : Nat) (authNet : Except AxiosFailure String)
    (gdata : GongCallsResponse) (zdata : ZoomInfoCompanyResponse)
    (p : GongSearchCallsParams) (q : ZoomInfoSearchCompanyParams)
    (hg : gdata.calls = none ∨ gdata.calls = some [])
    (hz : zdata.data = none ∨ zdata.data = some [])
    (htok : jsTruthy st.jwtToken = true) (hnow : now < st.tokenExpiry) :
    (gongSearchCalls env (some c) (.ok gdata) p).1.1
      = ⟨"No calls found in the specified date range.", false⟩ ∧
    (zoomInfoSearchCompany env st now authNet (.ok zdata) q).1.1
      = ⟨"No companies found matching your criteria.", false⟩ := by
  have hgc : gdata.calls.getD [] = [] := by
    cases hg with
    | inl h => rw [h]; rfl
    | inr h => rw [h]; rfl
  have hzc : zdata.data.getD [] = [] := by
    cases hz with
    | inl h => rw [h]; rfl
    | inr h => rw [h]; rfl
  constructor
  · unfold gongSearchCalls
    have hpost : gongPost env (some c) (Except.ok (α := GongCallsResponse) gdata)
        = ((.ok gdata, some c), 1) := rfl
    rw [hpost]
    simp [hgc]
  · unfold zoomInfoSearchCompany
    rw [zoomInfoPost_cached env st now authNet zdata htok hnow]
    simp [hzc]

/-- C8 witness: the empty-results theorem at concrete empty responses. -/
theorem searchTools_empty_not_error_witness :
    (gongSearchCalls {} (some ⟨"Basic k"⟩) (.ok ⟨none, none⟩)
        { from_date := "2024-01-01", to_date := "2024-02-01" }).1.1
      = ⟨"No calls found in the specified date range.", false⟩ ∧
    (zoomInfoSearchCompany {} ⟨some "tok", 10⟩ 0 (.ok "j") (.ok ⟨some [], none⟩) {}).1.1
      = ⟨"No companies found matching your criteria.", false⟩ := by
  exact searchTools_empty_not_error {} ⟨"Basic k"⟩ ⟨some "tok", 10⟩ 0 (.ok "j")
    ⟨none, none⟩ ⟨some [], none⟩ { from_date := "2024-01-01", to_date := "2024-02-01" } {}
    (Or.inl rfl) (Or.inr rfl) (by decide) (by decide)
